import Mathlib

/-!
Verification of the CDC-ACM function driver `drivers/usb/gadget/function/f_acm.c`
(USB gadget serial function). The definitions below are a shallow embedding of
the driver's control-plane logic: the SerialState notification channel
(`acm_notify_serial_state` / `acm_cdc_notify` / `acm_cdc_notify_complete`),
the notification wire format, the SET/GET_LINE_CODING control-request handling
(`acm_setup`, `acm_complete_set_line_coding`), and the interface activation
path (`acm_set_alt`, `acm_port_connect`). The embedding follows the build
without `CONFIG_LGE_USB_G_ANDROID` (the mainline notification buffer layout,
matching the 8-byte-header + 2-byte-payload allocation done in `acm_bind`).

Machine integers are modelled as `Nat` with explicit truncation where the C
code stores into a narrower field; errno returns are `Int` (negative on
failure), as in the source. Asynchronous effects (`usb_ep_queue` results,
completion statuses) are inputs chosen by the environment.
-/

namespace FAcm

/-! ## Constants from the source -/

/-- `-ESHUTDOWN` is the distinguished completion status delivered when the
endpoint is torn down with the transfer in flight; `ESHUTDOWN = 108`. -/
def ESHUTDOWN : Int := 108

/-- `ENODEV = 19`; `acm_port_connect`/`acm_port_disconnect` return `-ENODEV`
for an unsupported transport. -/
def ENODEV : Int := 19

/-- `EINVAL = 22`; `acm_set_alt` returns `-EINVAL` on failure. -/
def EINVAL : Int := 22

/-- `EOPNOTSUPP = 95`; `acm_setup` rejects unrecognized requests with
`-EOPNOTSUPP`. -/
def EOPNOTSUPP : Int := 95

/-- `USB_DIR_IN` (device-to-host direction bit of `bmRequestType`). -/
def USB_DIR_IN : Nat := 0x80

/-- `USB_DIR_OUT`. -/
def USB_DIR_OUT : Nat := 0x00

/-- `USB_TYPE_CLASS` (`0x01 << 5`). -/
def USB_TYPE_CLASS : Nat := 0x20

/-- `USB_RECIP_INTERFACE`. -/
def USB_RECIP_INTERFACE : Nat := 0x01

/-- `USB_CDC_NOTIFY_SERIAL_STATE` (CDC 1.1 §6.3.5). -/
def USB_CDC_NOTIFY_SERIAL_STATE : Nat := 0x20

/-- `USB_CDC_REQ_SET_LINE_CODING`. -/
def USB_CDC_REQ_SET_LINE_CODING : Nat := 0x20

/-- `USB_CDC_REQ_GET_LINE_CODING`. -/
def USB_CDC_REQ_GET_LINE_CODING : Nat := 0x21

/-- `USB_CDC_REQ_SET_CONTROL_LINE_STATE`. -/
def USB_CDC_REQ_SET_CONTROL_LINE_STATE : Nat := 0x22

/-- `ACM_CTRL_DCD` (bit 0 of `serial_state`). -/
def ACM_CTRL_DCD : Nat := 1

/-- `ACM_CTRL_DSR` (bit 1 of `serial_state`). -/
def ACM_CTRL_DSR : Nat := 2

/-- `sizeof(struct usb_cdc_line_coding)` = 7 bytes on the wire. -/
def LINE_CODING_SIZE : Nat := 7

/-! ## Notification channel state

`struct f_acm`'s notification-related fields, together with two ghost fields
that record the environment-visible history: `inFlight`, the number of
transfers queued on the interrupt endpoint and not yet completed, and `sent`,
the SerialState payload of every successfully queued transfer, oldest first.
`notify_req = true` models `acm->notify_req != NULL` (the request slot held by
the channel); `false` models the slot checked out for an outstanding send. -/

structure Acm where
  notify_req : Bool
  pending : Bool
  serial_state : Nat
  inFlight : Nat
  sent : List Nat
deriving Repr, DecidableEq

/-- State after `acm_bind` succeeds: the request slot is allocated (`notify_req`
non-NULL), `pending` and `serial_state` are zero-initialized by `kzalloc`. -/
def acmInit : Acm :=
  { notify_req := true, pending := false, serial_state := 0,
    inFlight := 0, sent := [] }

/-! ## Notification channel operations (f_acm.c lines 619-711) -/

/-- `acm_cdc_notify`: called with the lock held and `acm->notify_req`
non-NULL.  Checks the request slot out (`acm->notify_req = NULL`), clears
`pending`, formats the buffer (modelled separately by `acm_cdc_notify_buf`),
drops the lock and queues the transfer.  `submitStatus` is the value
`usb_ep_queue` returns: if negative, the slot is put back
(`acm->notify_req = req`) and the status is returned; otherwise the transfer
is in flight with the given payload.  Returns `(status, new state)`. -/
def acm_cdc_notify (acm : Acm) (payload : Nat) (submitStatus : Int) :
    Int × Acm :=
  let acm := { acm with notify_req := false, pending := false }
  if submitStatus < 0 then
    (submitStatus, { acm with notify_req := true })
  else
    (submitStatus,
     { acm with inFlight := acm.inFlight + 1, sent := acm.sent ++ [payload] })

/-- `acm_notify_serial_state`: if the slot is held, emit the current
`serial_state` via `acm_cdc_notify`; otherwise record `pending = true` and
return 0. -/
def acm_notify_serial_state (acm : Acm) (submitStatus : Int) : Int × Acm :=
  if acm.notify_req then
    acm_cdc_notify acm acm.serial_state submitStatus
  else
    (0, { acm with pending := true })

/-- `acm_cdc_notify_complete`: the completion callback.  Reads `doit` from
`pending` unless the status is `-ESHUTDOWN`, returns the slot
(`acm->notify_req = req`), and, when `doit`, re-runs
`acm_notify_serial_state` (whose submission outcome is `followupSubmit`). -/
def acm_cdc_notify_complete (acm : Acm) (status followupSubmit : Int) : Acm :=
  let doit := if status ≠ -ESHUTDOWN then acm.pending else false
  let acm := { acm with notify_req := true, inFlight := acm.inFlight - 1 }
  if doit then (acm_notify_serial_state acm followupSubmit).2 else acm

/-- `acm_connect` (tty link opened): set DSR and DCD in `serial_state`, then
notify. -/
def acm_connect (acm : Acm) (submitStatus : Int) : Acm :=
  let acm :=
    { acm with serial_state := acm.serial_state ||| (ACM_CTRL_DSR ||| ACM_CTRL_DCD) }
  (acm_notify_serial_state acm submitStatus).2

/-- `acm_disconnect`: clear DSR and DCD in `serial_state`, then notify.
The C code computes `serial_state &= ~(ACM_CTRL_DSR | ACM_CTRL_DCD)` in `u16`
arithmetic, i.e. a mask by `0xFFFC`. -/
def acm_disconnect (acm : Acm) (submitStatus : Int) : Acm :=
  let acm := { acm with serial_state := acm.serial_state &&& 0xFFFC }
  (acm_notify_serial_state acm submitStatus).2

/-- `acm_send_modem_ctrl_bits`: overwrite `serial_state` with the given bits
(truncated to `u16` by the assignment), then notify. -/
def acm_send_modem_ctrl_bits (acm : Acm) (ctrl_bits : Nat) (submitStatus : Int) :
    Int × Acm :=
  let acm := { acm with serial_state := ctrl_bits % 65536 }
  acm_notify_serial_state acm submitStatus

/-! ## Event traces

An event is either one of the state-changing entry points (each carrying the
`usb_ep_queue` status the environment would produce for a submission attempted
during that call) or a completion callback (carrying its completion status and
the queue status of a potential follow-up submission).  A completion can only
be delivered for a transfer actually in flight; `acmStep` refuses it
otherwise.  A transfer that completes synchronously inside `usb_ep_queue` is
represented by a `complete` event immediately after the submitting event: the
code after the re-lock in `acm_cdc_notify` only inspects the queueing status,
so this ordering is behaviourally faithful. -/

inductive AcmEv where
  | notify (submitStatus : Int)
  | setBits (v : Nat) (submitStatus : Int)
  | connect (submitStatus : Int)
  | disconnect (submitStatus : Int)
  | complete (status followupSubmit : Int)
deriving Repr, DecidableEq

def acmStep (acm : Acm) : AcmEv → Option Acm
  | .notify st => some (acm_notify_serial_state acm st).2
  | .setBits v st => some (acm_send_modem_ctrl_bits acm v st).2
  | .connect st => some (acm_connect acm st)
  | .disconnect st => some (acm_disconnect acm st)
  | .complete status fs =>
      if acm.inFlight = 0 then none
      else some (acm_cdc_notify_complete acm status fs)

def acmRun (acm : Acm) : List AcmEv → Option Acm
  | [] => some acm
  | e :: es =>
      match acmStep acm e with
      | some acm' => acmRun acm' es
      | none => none

/-- The channel invariant: the request slot is either held by the channel or
checked out for exactly one outstanding send, never both and never neither. -/
def AcmInv (acm : Acm) : Prop :=
  acm.inFlight + (if acm.notify_req then 1 else 0) = 1

/-! ## Notification wire format (f_acm.c lines 645-658)

`acm_cdc_notify` lays out a `struct usb_cdc_notification` header directly in
the request buffer and copies `length` bytes of payload after it.  All
multi-byte header fields are written with `cpu_to_le16`. -/

/-- Little-endian encoding of a 16-bit value as two bytes. -/
def le16 (v : Nat) : List Nat := [v % 256, v / 256 % 256]

/-- The request buffer built by `acm_cdc_notify`: `bmRequestType`,
`bNotificationType`, `wValue`, `wIndex = ctrl_id`, `wLength = data.length`,
then the payload bytes. -/
def acm_cdc_notify_buf (ctrl_id ty value : Nat) (data : List Nat) : List Nat :=
  ((USB_DIR_IN ||| USB_TYPE_CLASS ||| USB_RECIP_INTERFACE) :: ty ::
    (le16 value ++ le16 ctrl_id ++ le16 data.length)) ++ data

/-- The buffer submitted by `acm_notify_serial_state`: notification type
`USB_CDC_NOTIFY_SERIAL_STATE`, `wValue = 0`, payload = the 16-bit
`serial_state` in little-endian (`sizeof(acm->serial_state)` = 2 bytes). -/
def acm_serial_state_buf (ctrl_id serial_state : Nat) : List Nat :=
  acm_cdc_notify_buf ctrl_id USB_CDC_NOTIFY_SERIAL_STATE 0 (le16 serial_state)

/-! ## Line coding (f_acm.c lines 415-444 and 446-543)

`port_line_coding` is the 7-byte `struct usb_cdc_line_coding`, kept here as
its wire image (a list of bytes).  `acm_complete_set_line_coding` is the ep0
data-stage completion for SET_LINE_CODING; `acm_setup` is the class-request
dispatch. -/

/-- `acm_complete_set_line_coding`: given the completion `status`, the
`actual` transferred length and the request buffer contents, returns the new
`port_line_coding` and whether `usb_ep_set_halt` was called.  A non-zero
status returns immediately; a length mismatch halts the endpoint; otherwise
the 7 received bytes are copied into `port_line_coding`. -/
def acm_complete_set_line_coding (status : Int) (actual : Nat)
    (buf line_coding : List Nat) : List Nat × Bool :=
  if status ≠ 0 then (line_coding, false)
  else if actual ≠ LINE_CODING_SIZE then (line_coding, true)
  else (buf.take LINE_CODING_SIZE, false)

/-- The control-plane state read and written by `acm_setup`. -/
structure AcmCtrl where
  ctrl_id : Nat
  line_coding : List Nat
  handshake_bits : Nat
deriving Repr, DecidableEq

/-- Outcome of `acm_setup` before the final ep0 queueing: the returned
`value` (negative means stall), the response bytes placed in `req->buf` for an
IN data stage, and the updated state.  The three recognized requests are
keyed on `(bRequestType << 8) | bRequest` exactly as in the source switch:
SET_LINE_CODING checks `w_length == 7 && w_index == ctrl_id` and stages the
OUT data phase (its effect lands in `acm_complete_set_line_coding`);
GET_LINE_CODING checks the index and copies
`min(w_length, sizeof(line_coding))` bytes of `port_line_coding`;
SET_CONTROL_LINE_STATE checks the index and stores `w_value` into
`port_handshake_bits`; everything else falls through to `-EOPNOTSUPP`. -/
def acm_setup (s : AcmCtrl) (bRequestType bRequest w_value w_index w_length : Nat) :
    Int × List Nat × AcmCtrl :=
  if bRequestType * 256 + bRequest
      = (USB_DIR_OUT ||| USB_TYPE_CLASS ||| USB_RECIP_INTERFACE) * 256
        + USB_CDC_REQ_SET_LINE_CODING then
    if w_length ≠ LINE_CODING_SIZE ∨ w_index ≠ s.ctrl_id then (-EOPNOTSUPP, [], s)
    else ((w_length : Int), [], s)
  else if bRequestType * 256 + bRequest
      = (USB_DIR_IN ||| USB_TYPE_CLASS ||| USB_RECIP_INTERFACE) * 256
        + USB_CDC_REQ_GET_LINE_CODING then
    if w_index ≠ s.ctrl_id then (-EOPNOTSUPP, [], s)
    else ((min w_length LINE_CODING_SIZE : Nat), s.line_coding.take (min w_length LINE_CODING_SIZE), s)
  else if bRequestType * 256 + bRequest
      = (USB_DIR_OUT ||| USB_TYPE_CLASS ||| USB_RECIP_INTERFACE) * 256
        + USB_CDC_REQ_SET_CONTROL_LINE_STATE then
    if w_index ≠ s.ctrl_id then (-EOPNOTSUPP, [], s)
    else (0, [], { s with handshake_bits := w_value })
  else (-EOPNOTSUPP, [], s)

/-! ## Interface activation (f_acm.c lines 133-184 and 545-590)

`acm_set_alt` reacts to SET_INTERFACE(alt=0) on the control or data
interface.  The results of `config_ep_by_speed` (the per-speed descriptor
binding) are environment inputs: `true` means success, in which case the
endpoint's `desc` pointer is set.  `connected` models
`acm->port.in->driver_data`, the mark left by a live transport connection. -/

inductive TransportType where
  | tty
  | smd
  | unsupported
deriving Repr, DecidableEq

structure AltPort where
  ctrl_id : Nat
  data_id : Nat
  transport : TransportType
  notify_enabled : Bool
  notify_desc : Bool
  in_desc : Bool
  out_desc : Bool
  connected : Bool
deriving Repr, DecidableEq

/-- `acm_port_connect`: dispatch on the transport kind.  TTY and SMD call the
matching connect routine and return 0; any other kind logs an error and
returns `-ENODEV` without connecting. -/
def acm_port_connect (p : AltPort) : Int × AltPort :=
  match p.transport with
  | .tty => (0, { p with connected := true })
  | .smd => (0, { p with connected := true })
  | .unsupported => (-ENODEV, p)

/-- `acm_port_disconnect`: dispatch on the transport kind, mirroring
`acm_port_connect`. -/
def acm_port_disconnect (p : AltPort) : Int × AltPort :=
  match p.transport with
  | .tty => (0, { p with connected := false })
  | .smd => (0, { p with connected := false })
  | .unsupported => (-ENODEV, p)

/-- `acm_set_alt` (alt is known to be 0).  Control interface: disable the
notification endpoint if it was enabled, bind its descriptor for the
negotiated speed if unbound (failure returns `-EINVAL`), then enable it.
Data interface: disconnect the transport if it was connected, (re)bind both
data endpoint descriptors if either is unbound — on failure both `desc`
pointers are set to NULL and `-EINVAL` is returned — then call
`acm_port_connect`; note the source discards `acm_port_connect`'s return
value and returns 0.  Any other interface id returns `-EINVAL`. -/
def acm_set_alt (p : AltPort) (intf : Nat) (cfg_notify cfg_in cfg_out : Bool) :
    Int × AltPort :=
  if intf = p.ctrl_id then
    let p := if p.notify_enabled then { p with notify_enabled := false } else p
    if !p.notify_desc then
      if !cfg_notify then (-EINVAL, p)
      else
        let p := { p with notify_desc := true }
        (0, { p with notify_enabled := true })
    else (0, { p with notify_enabled := true })
  else if intf = p.data_id then
    let p := if p.connected then (acm_port_disconnect p).2 else p
    if !p.in_desc || !p.out_desc then
      if !cfg_in then (-EINVAL, { p with in_desc := false, out_desc := false })
      else
        let p := { p with in_desc := true }
        if !cfg_out then (-EINVAL, { p with in_desc := false, out_desc := false })
        else
          let p := { p with out_desc := true }
          (0, (acm_port_connect p).2)
    else (0, (acm_port_connect p).2)
  else (-EINVAL, p)

/-- A concrete port whose transport is not one of the supported kinds, with
both data endpoint descriptors already bound. -/
def altPortUnsupported : AltPort :=
  { ctrl_id := 0, data_id := 1, transport := .unsupported,
    notify_enabled := false, notify_desc := false,
    in_desc := true, out_desc := true, connected := false }

/-- A concrete port with a supported transport whose IN data endpoint
descriptor is unbound, so data-interface activation must attempt a rebind. -/
def altPortHalfBound : AltPort :=
  { ctrl_id := 0, data_id := 1, transport := .tty,
    notify_enabled := false, notify_desc := false,
    in_desc := false, out_desc := true, connected := false }

/-! ## Helper lemmas -/

theorem acm_notify_serial_state_inv (acm : Acm) (st : Int) (h : AcmInv acm) :
    AcmInv (acm_notify_serial_state acm st).2 := by
  unfold AcmInv at h ⊢
  unfold acm_notify_serial_state acm_cdc_notify
  by_cases hreq : acm.notify_req <;> simp [hreq] at h ⊢ <;>
    [skip; simpa using h]
  by_cases hs : st < 0 <;> simp [hs] <;> omega

theorem acm_cdc_notify_complete_inv (acm : Acm) (status fs : Int)
    (h : AcmInv acm) : AcmInv (acm_cdc_notify_complete acm status fs) := by
  unfold AcmInv at h
  unfold acm_cdc_notify_complete
  have hstep : AcmInv { acm with notify_req := true, inFlight := acm.inFlight - 1 } := by
    unfold AcmInv
    simp
    by_cases hreq : acm.notify_req <;> simp [hreq] at h <;> omega
  by_cases hd : (if status ≠ -ESHUTDOWN then acm.pending else false) = true <;>
    simp [hd]
  · exact acm_notify_serial_state_inv _ _ hstep
  · simp at hd
    exact hstep

theorem acmStep_inv (acm acm' : Acm) (e : AcmEv) (h : AcmInv acm)
    (hs : acmStep acm e = some acm') : AcmInv acm' := by
  cases e with
  | notify st =>
      simp [acmStep] at hs
      exact hs ▸ acm_notify_serial_state_inv _ _ h
  | setBits v st =>
      simp [acmStep, acm_send_modem_ctrl_bits] at hs
      subst hs
      exact acm_notify_serial_state_inv _ _ h
  | connect st =>
      simp [acmStep, acm_connect] at hs
      subst hs
      exact acm_notify_serial_state_inv _ _ h
  | disconnect st =>
      simp [acmStep, acm_disconnect] at hs
      subst hs
      exact acm_notify_serial_state_inv _ _ h
  | complete status fs =>
      simp [acmStep] at hs
      obtain ⟨hf, hs⟩ := hs
      subst hs
      exact acm_cdc_notify_complete_inv _ _ _ h

theorem acmRun_inv (evs : List AcmEv) (acm acm' : Acm) (h : AcmInv acm)
    (hr : acmRun acm evs = some acm') : AcmInv acm' := by
  induction evs generalizing acm with
  | nil => simp [acmRun] at hr; exact hr ▸ h
  | cons e es ih =>
      simp only [acmRun] at hr
      cases hstep : acmStep acm e with
      | none => simp [hstep] at hr
      | some acm1 =>
          simp [hstep] at hr
          exact ih acm1 (acmStep_inv acm acm1 e h hstep) hr

theorem lor_land_self (x m : Nat) : (x ||| m) &&& m = m := by
  apply Nat.eq_of_testBit_eq
  intro i
  rw [Nat.testBit_land, Nat.testBit_lor]
  cases Nat.testBit x i <;> cases Nat.testBit m i <;> rfl

theorem mask_testBit_true : ∀ i < 16, 2 ≤ i → Nat.testBit 0xFFFC i = true := by
  decide

theorem three_testBit_false (i : Nat) (h : 2 ≤ i) : Nat.testBit 3 i = false := by
  apply Nat.testBit_lt_two_pow
  calc 3 < 2 ^ 2 := by norm_num
    _ ≤ 2 ^ i := Nat.pow_le_pow_right (by norm_num) h

/-- A state with one transfer outstanding (slot checked out), used as a
concrete instantiation point. -/
def acmOutstanding : Acm :=
  { notify_req := false, pending := false, serial_state := 9,
    inFlight := 1, sent := [9] }

/-- A state with one transfer outstanding and a coalesced change pending. -/
def acmPendingState : Acm :=
  { notify_req := false, pending := true, serial_state := 5,
    inFlight := 1, sent := [] }

/-- An idle state (slot held, nothing in flight) with bit 4 of
`serial_state` set. -/
def acmIdleState : Acm :=
  { notify_req := true, pending := false, serial_state := 16,
    inFlight := 0, sent := [] }

/-- A concrete control-plane state with an all-zero stored line coding. -/
def acmCtrlZero : AcmCtrl :=
  { ctrl_id := 0, line_coding := [0, 0, 0, 0, 0, 0, 0], handshake_bits := 0 }

/-! ## Claim theorems -/

/-- C1: for every sequence of `acm_notify_serial_state` calls (and the other
state-changing entry points) interleaved with completion callbacks, starting
from the state established by `acm_bind`, the notification request slot is
either held by the channel or checked out for exactly one outstanding send,
never both — so two notification transfers are never simultaneously in
flight. -/
theorem acm_at_most_one_outstanding (evs : List AcmEv) (s : Acm)
    (h : acmRun acmInit evs = some s) :
    s.inFlight + (if s.notify_req then 1 else 0) = 1 :=
  acmRun_inv evs acmInit s (by simp [AcmInv, acmInit]) h

/-- C1 witness: the invariant evaluated after the concrete trace
`[notify 0, complete 0 0]`. -/
theorem acm_at_most_one_outstanding_w :
    ({ notify_req := true, pending := false, serial_state := 0, inFlight := 0,
       sent := [0] } : Acm).inFlight +
      (if ({ notify_req := true, pending := false, serial_state := 0,
             inFlight := 0, sent := [0] } : Acm).notify_req then 1 else 0) = 1 :=
  acm_at_most_one_outstanding [AcmEv.notify 0, AcmEv.complete 0 0] _ (by decide)

/-- C2: a `acm_notify_serial_state` call while a transfer is outstanding
returns 0 and only sets `pending` (no submission); after state changes
S1, S2, S3 fired while the earlier transfer is outstanding, the completion of
that transfer submits exactly one follow-up whose payload is S3 — the
`serial_state` current at follow-up time — never S1 or S2. -/
theorem acm_notify_coalescing (s : Acm) (S1 S2 S3 : Nat) (a b c status fs : Int)
    (hreq : s.notify_req = false) (hfl : s.inFlight = 1)
    (hstat : status ≠ -ESHUTDOWN) (hfs : 0 ≤ fs) (hS3 : S3 < 65536) :
    ((acm_notify_serial_state s a).1 = 0 ∧
     (acm_notify_serial_state s a).2 = { s with pending := true }) ∧
    acmRun s [AcmEv.setBits S1 a, AcmEv.setBits S2 b, AcmEv.setBits S3 c,
              AcmEv.complete status fs]
      = some { notify_req := false, pending := false, serial_state := S3,
               inFlight := 1, sent := s.sent ++ [S3] } := by
  have hfs' : ¬ fs < 0 := by omega
  refine ⟨⟨?_, ?_⟩, ?_⟩
  · simp [acm_notify_serial_state, hreq]
  · simp [acm_notify_serial_state, hreq]
  · simp [acmRun, acmStep, acm_send_modem_ctrl_bits, acm_notify_serial_state,
          acm_cdc_notify, acm_cdc_notify_complete, hreq, hfl, hstat, hfs',
          Nat.mod_eq_of_lt hS3]

/-- C2 witness: coalescing of the changes 1, 2, 3 into one follow-up carrying
payload 3, on a concrete outstanding state. -/
theorem acm_notify_coalescing_w :
    ((acm_notify_serial_state acmOutstanding 0).1 = 0 ∧
     (acm_notify_serial_state acmOutstanding 0).2
       = { acmOutstanding with pending := true }) ∧
    acmRun acmOutstanding [AcmEv.setBits 1 0, AcmEv.setBits 2 0,
              AcmEv.setBits 3 0, AcmEv.complete (-1) 0]
      = some { notify_req := false, pending := false, serial_state := 3,
               inFlight := 1, sent := acmOutstanding.sent ++ [3] } :=
  acm_notify_coalescing acmOutstanding 1 2 3 0 0 0 (-1) 0 rfl rfl
    (by decide) (by decide) (by decide)

/-- C3: a completion with the distinguished shutdown status `-ESHUTDOWN`
returns the slot to free and changes nothing else — in particular it submits
no follow-up even though `pending` is true — while a completion with any
other status and `pending` true does run the follow-up emit (on a successful
queueing, the current `serial_state` is submitted). -/
theorem acm_shutdown_suppresses_followup (s : Acm) (status fs fs' : Int)
    (hpend : s.pending = true) (hstat : status ≠ -ESHUTDOWN) (hfs' : 0 ≤ fs') :
    (acm_cdc_notify_complete s (-ESHUTDOWN) fs
       = { s with notify_req := true, inFlight := s.inFlight - 1 }) ∧
    ((acm_cdc_notify_complete s status fs').sent = s.sent ++ [s.serial_state] ∧
     (acm_cdc_notify_complete s status fs').inFlight = (s.inFlight - 1) + 1 ∧
     (acm_cdc_notify_complete s status fs').pending = false) := by
  have hfs'' : ¬ fs' < 0 := by omega
  constructor
  · simp [acm_cdc_notify_complete]
  · simp [acm_cdc_notify_complete, acm_notify_serial_state, acm_cdc_notify,
          hpend, hstat, hfs'']

/-- C3 witness: shutdown versus ordinary completion on a concrete pending
state. -/
theorem acm_shutdown_suppresses_followup_w :
    (acm_cdc_notify_complete acmPendingState (-ESHUTDOWN) 0
       = { acmPendingState with
           notify_req := true
           inFlight := acmPendingState.inFlight - 1 }) ∧
    ((acm_cdc_notify_complete acmPendingState 0 0).sent
        = acmPendingState.sent ++ [acmPendingState.serial_state] ∧
     (acm_cdc_notify_complete acmPendingState 0 0).inFlight
        = (acmPendingState.inFlight - 1) + 1 ∧
     (acm_cdc_notify_complete acmPendingState 0 0).pending = false) :=
  acm_shutdown_suppresses_followup acmPendingState 0 0 0 rfl (by decide) (by decide)

/-- C4: when `usb_ep_queue` fails (negative status), `acm_cdc_notify` puts
the request back in the slot, reports exactly that status to its caller, and
changes nothing else (no transfer queued, no retry scheduled); and when the
slot is occupied, `acm_notify_serial_state` returns success (0). -/
theorem acm_submit_failure_frees_slot (s : Acm) (payload : Nat) (st a : Int)
    (hst : st < 0) :
    (acm_cdc_notify s payload st
       = (st, { s with notify_req := true, pending := false })) ∧
    (s.notify_req = false →
      acm_notify_serial_state s a = (0, { s with pending := true })) := by
  constructor
  · simp [acm_cdc_notify, hst]
  · intro hreq
    simp [acm_notify_serial_state, hreq]

/-- C4 witness: a failed submission with status -22 on a concrete idle state,
and a busy-slot call on a concrete outstanding state. -/
theorem acm_submit_failure_frees_slot_w :
    (acm_cdc_notify acmOutstanding 9 (-22)
       = (-22, { acmOutstanding with notify_req := true, pending := false })) ∧
    (acmOutstanding.notify_req = false →
      acm_notify_serial_state acmOutstanding 0
        = (0, { acmOutstanding with pending := true })) :=
  acm_submit_failure_frees_slot acmOutstanding 9 (-22) 0 (by decide)

/-- C5: the buffer submitted for a SerialState notification is the 8-byte
header — `bmRequestType = USB_DIR_IN | USB_TYPE_CLASS | USB_RECIP_INTERFACE`
(= 0xA1), notification code 0x20, little-endian wValue = 0, little-endian
wIndex = control interface id, little-endian wLength = 2 (the payload
length) — followed by exactly the little-endian 16-bit `serial_state`
payload: 10 bytes in total. -/
theorem acm_serial_state_wire_format (ctrl_id ss : Nat)
    (hc : ctrl_id < 256) (hs : ss < 65536) :
    acm_serial_state_buf ctrl_id ss
      = [0xA1, 0x20, 0, 0, ctrl_id, 0, 2, 0] ++ [ss % 256, ss / 256] ∧
    (USB_DIR_IN ||| USB_TYPE_CLASS ||| USB_RECIP_INTERFACE) = 0xA1 ∧
    USB_CDC_NOTIFY_SERIAL_STATE = 0x20 ∧
    (acm_serial_state_buf ctrl_id ss).length = 10 := by
  have hdiv : ss / 256 < 256 := by omega
  have hdiv0 : ctrl_id / 256 = 0 := Nat.div_eq_of_lt hc
  refine ⟨?_, by decide, by decide, ?_⟩ <;>
    simp [acm_serial_state_buf, acm_cdc_notify_buf, le16, USB_DIR_IN,
          USB_TYPE_CLASS, USB_RECIP_INTERFACE, USB_CDC_NOTIFY_SERIAL_STATE,
          Nat.mod_eq_of_lt hc, Nat.mod_eq_of_lt hdiv, hdiv0]

/-- C5 witness: the wire image for control interface 5 and serial state
0x0303. -/
theorem acm_serial_state_wire_format_w :
    acm_serial_state_buf 5 771
      = [0xA1, 0x20, 0, 0, 5, 0, 2, 0] ++ [771 % 256, 771 / 256] ∧
    (USB_DIR_IN ||| USB_TYPE_CLASS ||| USB_RECIP_INTERFACE) = 0xA1 ∧
    USB_CDC_NOTIFY_SERIAL_STATE = 0x20 ∧
    (acm_serial_state_buf 5 771).length = 10 :=
  acm_serial_state_wire_format 5 771 (by decide) (by decide)

/-- C6: on a successful SET_LINE_CODING data-stage completion, a transferred
length different from the 7-byte structure size halts the endpoint and leaves
`port_line_coding` unmodified; only an exact 7-byte transfer copies the
received bytes into `port_line_coding` (and does not halt). -/
theorem acm_set_line_coding_short_halts (status : Int) (actual : Nat)
    (buf cur : List Nat) (hok : status = 0) :
    (actual ≠ LINE_CODING_SIZE →
      acm_complete_set_line_coding status actual buf cur = (cur, true)) ∧
    (actual = LINE_CODING_SIZE →
      acm_complete_set_line_coding status actual buf cur
        = (buf.take LINE_CODING_SIZE, false)) := by
  subst hok
  constructor
  · intro hne
    simp [acm_complete_set_line_coding, hne]
  · intro heq
    simp [acm_complete_set_line_coding, heq]

/-- C6 witness: a 5-byte transfer halts and preserves the stored line coding;
a 7-byte transfer stores the received bytes. -/
theorem acm_set_line_coding_short_halts_w :
    (5 ≠ LINE_CODING_SIZE →
      acm_complete_set_line_coding 0 5 [1, 2, 3, 4, 5] [0, 194, 1, 0, 0, 0, 8]
        = ([0, 194, 1, 0, 0, 0, 8], true)) ∧
    (5 = LINE_CODING_SIZE →
      acm_complete_set_line_coding 0 5 [1, 2, 3, 4, 5] [0, 194, 1, 0, 0, 0, 8]
        = ([1, 2, 3, 4, 5].take LINE_CODING_SIZE, false)) :=
  acm_set_line_coding_short_halts 0 5 [1, 2, 3, 4, 5] [0, 194, 1, 0, 0, 0, 8] rfl

/-- C7: after a SET_LINE_CODING data stage of exactly 7 bytes completes with
success, GET_LINE_CODING on the control interface returns those identical 7
bytes; and for every requested length, GET_LINE_CODING returns
`min(requested_length, 7)` bytes of the current `port_line_coding` and leaves
the state unchanged.  (SET_LINE_CODING itself stages a 7-byte data phase,
returning `w_length`.) -/
theorem acm_line_coding_roundtrip (s : AcmCtrl) (buf : List Nat) (w_length : Nat)
    (hbuf : buf.length = LINE_CODING_SIZE) :
    (acm_setup { s with line_coding :=
        (acm_complete_set_line_coding 0 LINE_CODING_SIZE buf s.line_coding).1 }
      (USB_DIR_IN ||| USB_TYPE_CLASS ||| USB_RECIP_INTERFACE)
      USB_CDC_REQ_GET_LINE_CODING 0 s.ctrl_id LINE_CODING_SIZE).2.1 = buf ∧
    (acm_setup s (USB_DIR_OUT ||| USB_TYPE_CLASS ||| USB_RECIP_INTERFACE)
      USB_CDC_REQ_SET_LINE_CODING 0 s.ctrl_id LINE_CODING_SIZE).1
      = (LINE_CODING_SIZE : Nat) ∧
    (acm_setup s (USB_DIR_IN ||| USB_TYPE_CLASS ||| USB_RECIP_INTERFACE)
      USB_CDC_REQ_GET_LINE_CODING 0 s.ctrl_id w_length).1
      = ((min w_length LINE_CODING_SIZE : Nat) : Int) ∧
    (acm_setup s (USB_DIR_IN ||| USB_TYPE_CLASS ||| USB_RECIP_INTERFACE)
      USB_CDC_REQ_GET_LINE_CODING 0 s.ctrl_id w_length).2.1
      = s.line_coding.take (min w_length LINE_CODING_SIZE) ∧
    (acm_setup s (USB_DIR_IN ||| USB_TYPE_CLASS ||| USB_RECIP_INTERFACE)
      USB_CDC_REQ_GET_LINE_CODING 0 s.ctrl_id w_length).2.2 = s := by
  have hbuf7 : buf.length = 7 := hbuf
  have htake : buf.take 7 = buf := by
    rw [← hbuf7]
    exact List.take_length buf
  refine ⟨?_, ?_, ?_, ?_, ?_⟩ <;>
    simp [acm_setup, acm_complete_set_line_coding, LINE_CODING_SIZE,
          USB_DIR_IN, USB_DIR_OUT, USB_TYPE_CLASS, USB_RECIP_INTERFACE,
          USB_CDC_REQ_SET_LINE_CODING, USB_CDC_REQ_GET_LINE_CODING,
          USB_CDC_REQ_SET_CONTROL_LINE_STATE, List.take_take, htake]

/-- C7 witness: round-trip of the 7-byte coding for 115200-8-N-1 on control
interface 0, plus a truncated GET of 4 bytes. -/
theorem acm_line_coding_roundtrip_w :
    (acm_setup { acmCtrlZero with line_coding :=
        (acm_complete_set_line_coding 0 LINE_CODING_SIZE
          [0, 194, 1, 0, 0, 0, 8] acmCtrlZero.line_coding).1 }
      (USB_DIR_IN ||| USB_TYPE_CLASS ||| USB_RECIP_INTERFACE)
      USB_CDC_REQ_GET_LINE_CODING 0 acmCtrlZero.ctrl_id
      LINE_CODING_SIZE).2.1 = [0, 194, 1, 0, 0, 0, 8] ∧
    (acm_setup acmCtrlZero
      (USB_DIR_OUT ||| USB_TYPE_CLASS ||| USB_RECIP_INTERFACE)
      USB_CDC_REQ_SET_LINE_CODING 0 acmCtrlZero.ctrl_id
      LINE_CODING_SIZE).1 = (LINE_CODING_SIZE : Nat) ∧
    (acm_setup acmCtrlZero
      (USB_DIR_IN ||| USB_TYPE_CLASS ||| USB_RECIP_INTERFACE)
      USB_CDC_REQ_GET_LINE_CODING 0 acmCtrlZero.ctrl_id 4).1
      = ((min 4 LINE_CODING_SIZE : Nat) : Int) ∧
    (acm_setup acmCtrlZero
      (USB_DIR_IN ||| USB_TYPE_CLASS ||| USB_RECIP_INTERFACE)
      USB_CDC_REQ_GET_LINE_CODING 0 acmCtrlZero.ctrl_id 4).2.1
      = acmCtrlZero.line_coding.take (min 4 LINE_CODING_SIZE) ∧
    (acm_setup acmCtrlZero
      (USB_DIR_IN ||| USB_TYPE_CLASS ||| USB_RECIP_INTERFACE)
      USB_CDC_REQ_GET_LINE_CODING 0 acmCtrlZero.ctrl_id 4).2.2
      = acmCtrlZero :=
  acm_line_coding_roundtrip acmCtrlZero [0, 194, 1, 0, 0, 0, 8] 4 rfl

/-- C8 counterexample: on a port whose transport kind is unsupported and
whose data endpoint descriptors are already bound, `acm_port_connect` fails
with `-ENODEV`, yet `acm_set_alt` on the data interface returns 0 (success) —
refuting the claim that the activation transition fails. -/
theorem acm_set_alt_unsupported_reports_success :
    (acm_port_connect altPortUnsupported).1 = -ENODEV ∧
    (acm_set_alt altPortUnsupported 1 true true true).1 = 0 := by
  decide

set_option maxHeartbeats 1000000 in
/-- C8 (amended): if binding either data endpoint descriptor fails, both
descriptor pointers are invalidated and `acm_set_alt` returns `-EINVAL`; if
the transport kind is unsupported, the connect step fails with `-ENODEV`, but
`acm_set_alt` discards that failure and returns success (0). -/
theorem acm_set_alt_data_error_handling (p : AltPort) (cN cI cO : Bool)
    (hids : p.ctrl_id ≠ p.data_id) :
    ((p.in_desc = false ∨ p.out_desc = false) → (cI = false ∨ cO = false) →
      (acm_set_alt p p.data_id cN cI cO).1 = -EINVAL ∧
      (acm_set_alt p p.data_id cN cI cO).2.in_desc = false ∧
      (acm_set_alt p p.data_id cN cI cO).2.out_desc = false) ∧
    (p.transport = TransportType.unsupported → cI = true → cO = true →
      (acm_port_connect p).1 = -ENODEV ∧
      (acm_set_alt p p.data_id cN cI cO).1 = 0) := by
  obtain ⟨cid, did, tr, nen, nd, ind, outd, conn⟩ := p
  simp only [ne_eq] at hids
  have hne : ¬ (did = cid) := fun h => hids h.symm
  cases tr <;> cases conn <;> cases ind <;> cases outd <;> cases cI <;>
    cases cO <;>
    simp [acm_set_alt, acm_port_connect, acm_port_disconnect, hne]

/-- C8 amended witness, discharging both branches: on `altPortHalfBound`
(IN descriptor unbound) with both `config_ep_by_speed` calls failing, the
transition returns `-EINVAL` and invalidates both descriptors; on
`altPortUnsupported` with both calls succeeding, the connect step returns
`-ENODEV` yet the transition returns 0. -/
theorem acm_set_alt_data_error_handling_w :
    ((acm_set_alt altPortHalfBound altPortHalfBound.data_id true false false).1
        = -EINVAL ∧
     (acm_set_alt altPortHalfBound altPortHalfBound.data_id true false false).2.in_desc
        = false ∧
     (acm_set_alt altPortHalfBound altPortHalfBound.data_id true false false).2.out_desc
        = false) ∧
    ((acm_port_connect altPortUnsupported).1 = -ENODEV ∧
     (acm_set_alt altPortUnsupported altPortUnsupported.data_id true true true).1 = 0) :=
  ⟨(acm_set_alt_data_error_handling altPortHalfBound true false false
      (by decide)).1 (Or.inl rfl) (Or.inl rfl),
   (acm_set_alt_data_error_handling altPortUnsupported true true true
      (by decide)).2 rfl rfl rfl⟩

/-- C9: `acm_connect` sets exactly the DCD and DSR bits of `serial_state`
(bits at positions ≥ 2 unchanged) and submits a notification whose payload
has those bits set; an immediately following `acm_disconnect`, issued while
that transfer is still in flight, clears exactly DCD and DSR and coalesces
into the pending notification, whose follow-up payload (submitted once the
first transfer completes) has those bits cleared. -/
theorem acm_connect_disconnect_discipline (s : Acm) (f1 f2 f3 status : Int)
    (hreq : s.notify_req = true) (hin : s.inFlight = 0)
    (hss : s.serial_state < 65536)
    (hf1 : 0 ≤ f1) (hf3 : 0 ≤ f3) (hstat : status ≠ -ESHUTDOWN) :
    acmRun s [AcmEv.connect f1, AcmEv.disconnect f2, AcmEv.complete status f3]
      = some { notify_req := false, pending := false,
               serial_state :=
                 (s.serial_state ||| (ACM_CTRL_DSR ||| ACM_CTRL_DCD)) &&& 0xFFFC,
               inFlight := 1,
               sent := s.sent
                 ++ [s.serial_state ||| (ACM_CTRL_DSR ||| ACM_CTRL_DCD),
                     (s.serial_state ||| (ACM_CTRL_DSR ||| ACM_CTRL_DCD)) &&& 0xFFFC] } ∧
    (s.serial_state ||| (ACM_CTRL_DSR ||| ACM_CTRL_DCD))
        &&& (ACM_CTRL_DSR ||| ACM_CTRL_DCD) = ACM_CTRL_DSR ||| ACM_CTRL_DCD ∧
    ((s.serial_state ||| (ACM_CTRL_DSR ||| ACM_CTRL_DCD)) &&& 0xFFFC)
        &&& (ACM_CTRL_DSR ||| ACM_CTRL_DCD) = 0 ∧
    (∀ i, 2 ≤ i →
      Nat.testBit (s.serial_state ||| (ACM_CTRL_DSR ||| ACM_CTRL_DCD)) i
        = Nat.testBit s.serial_state i) ∧
    (∀ i, 2 ≤ i →
      Nat.testBit ((s.serial_state ||| (ACM_CTRL_DSR ||| ACM_CTRL_DCD)) &&& 0xFFFC) i
        = Nat.testBit (s.serial_state ||| (ACM_CTRL_DSR ||| ACM_CTRL_DCD)) i) := by
  have hf1' : ¬ f1 < 0 := by omega
  have hf3' : ¬ f3 < 0 := by omega
  have hc : s.serial_state ||| (ACM_CTRL_DSR ||| ACM_CTRL_DCD) < 65536 := by
    have h1 : s.serial_state < 2 ^ 16 := hss
    have h2 : (ACM_CTRL_DSR ||| ACM_CTRL_DCD) < 2 ^ 16 := by decide
    exact Nat.or_lt_two_pow h1 h2
  refine ⟨?_, ?_, ?_, ?_, ?_⟩
  · simp [acmRun, acmStep, acm_connect, acm_disconnect,
          acm_notify_serial_state, acm_cdc_notify, acm_cdc_notify_complete,
          hreq, hin, hstat, hf1', hf3']
  · exact lor_land_self s.serial_state (ACM_CTRL_DSR ||| ACM_CTRL_DCD)
  · have he3 : (ACM_CTRL_DSR ||| ACM_CTRL_DCD) = 3 := by decide
    have h30 : (0xFFFC : Nat) &&& 3 = 0 := by decide
    rw [he3, Nat.land_assoc, h30]
    simp
  · intro i hi
    have he3 : (ACM_CTRL_DSR ||| ACM_CTRL_DCD) = 3 := by decide
    rw [he3, Nat.testBit_lor, three_testBit_false i hi, Bool.or_false]
  · intro i hi
    rw [Nat.testBit_land]
    by_cases h16 : i < 16
    · rw [mask_testBit_true i h16 hi, Bool.and_true]
    · have hbig : Nat.testBit (s.serial_state ||| (ACM_CTRL_DSR ||| ACM_CTRL_DCD)) i
          = false := by
        apply Nat.testBit_lt_two_pow
        calc s.serial_state ||| (ACM_CTRL_DSR ||| ACM_CTRL_DCD) < 2 ^ 16 := hc
          _ ≤ 2 ^ i := Nat.pow_le_pow_right (by norm_num) (by omega)
      rw [hbig, Bool.false_and]

/-- C9 witness: connect then disconnect (coalesced) then completion, on a
concrete idle state with bit 4 set. -/
theorem acm_connect_disconnect_discipline_w :
    acmRun acmIdleState
        [AcmEv.connect 0, AcmEv.disconnect 0, AcmEv.complete 0 0]
      = some { notify_req := false, pending := false,
               serial_state :=
                 (acmIdleState.serial_state ||| (ACM_CTRL_DSR ||| ACM_CTRL_DCD)) &&& 0xFFFC,
               inFlight := 1,
               sent := acmIdleState.sent
                 ++ [acmIdleState.serial_state ||| (ACM_CTRL_DSR ||| ACM_CTRL_DCD),
                     (acmIdleState.serial_state ||| (ACM_CTRL_DSR ||| ACM_CTRL_DCD)) &&& 0xFFFC] } ∧
    (acmIdleState.serial_state ||| (ACM_CTRL_DSR ||| ACM_CTRL_DCD))
        &&& (ACM_CTRL_DSR ||| ACM_CTRL_DCD) = ACM_CTRL_DSR ||| ACM_CTRL_DCD ∧
    ((acmIdleState.serial_state ||| (ACM_CTRL_DSR ||| ACM_CTRL_DCD)) &&& 0xFFFC)
        &&& (ACM_CTRL_DSR ||| ACM_CTRL_DCD) = 0 ∧
    (∀ i, 2 ≤ i →
      Nat.testBit (acmIdleState.serial_state ||| (ACM_CTRL_DSR ||| ACM_CTRL_DCD)) i
        = Nat.testBit acmIdleState.serial_state i) ∧
    (∀ i, 2 ≤ i →
      Nat.testBit ((acmIdleState.serial_state ||| (ACM_CTRL_DSR ||| ACM_CTRL_DCD)) &&& 0xFFFC) i
        = Nat.testBit (acmIdleState.serial_state ||| (ACM_CTRL_DSR ||| ACM_CTRL_DCD)) i) :=
  acm_connect_disconnect_discipline acmIdleState 0 0 0 0 rfl rfl
    (by decide) (by decide) (by decide) (by decide)

/-- C10: a SET_LINE_CODING data-stage completion with a non-zero status
returns immediately: `port_line_coding` is unmodified and the endpoint is not
halted — unlike the short-transfer case. -/
theorem acm_set_line_coding_error_drops (status : Int) (actual : Nat)
    (buf cur : List Nat) (herr : status ≠ 0) :
    acm_complete_set_line_coding status actual buf cur = (cur, false) := by
  simp [acm_complete_set_line_coding, herr]

/-- C10 witness: a completion with status -108 drops a well-formed 7-byte
payload without halting. -/
theorem acm_set_line_coding_error_drops_w :
    acm_complete_set_line_coding (-108) 7 [0, 194, 1, 0, 0, 0, 8]
        [1, 2, 3, 4, 5, 6, 7]
      = ([1, 2, 3, 4, 5, 6, 7], false) :=
  acm_set_line_coding_error_drops (-108) 7 [0, 194, 1, 0, 0, 0, 8]
    [1, 2, 3, 4, 5, 6, 7] (by decide)

end FAcm

